import Mathlib

/-!
Shallow embedding of the core of the `iri-facility-api-python` repository:
the generic entity filter engine (`app/routers/models.py`,
`app/routers/status/models.py`), the adapter registry and auth gate
(`app/routers/iri_router.py`), and the task dispatcher
(`app/routers/task/facility_adapter.py`).

Python runtime behaviour relevant to these modules is modelled explicitly:
exceptions become `Except PyError`, `datetime` values carry an optional
UTC offset (`None` tzinfo = naive), and Python truthiness of optional
strings is modelled (`None` and `""` are both falsy).
-/

namespace IriApi

/-- Model of a raised Python exception, carrying its message text. -/
inductive PyError where
  | typeError (msg : String) : PyError
  | exception (msg : String) : PyError
deriving Repr, DecidableEq

/-- Message text of an exception, as interpolated by `f"... {exc}"`. -/
def PyError.message : PyError → String
  | .typeError m => m
  | .exception m => m

/-- Model of a Python `datetime.datetime`: `wall` is the wall-clock value
(in abstract ticks) and `tz` is the UTC offset of its `tzinfo`
(`none` = naive datetime, `some 0` = `timezone.utc`). -/
structure PyDateTime where
  wall : Int
  tz : Option Int
deriving Repr, DecidableEq

/-- The UTC instant a datetime denotes (naive values read as-is, mirroring
comparison of two naive datetimes). -/
def utcKey (dt : PyDateTime) : Int := dt.wall - dt.tz.getD 0

/-- Python `<=` on datetimes: naive vs aware raises `TypeError`. -/
def pyLe (a b : PyDateTime) : Except PyError Bool :=
  match a.tz, b.tz with
  | none, none => .ok (decide (a.wall ≤ b.wall))
  | some x, some y => .ok (decide (a.wall - x ≤ b.wall - y))
  | _, _ => .error (.typeError "cannot compare offset-naive and offset-aware datetimes")

/-- Python `<` on datetimes: naive vs aware raises `TypeError`. -/
def pyLt (a b : PyDateTime) : Except PyError Bool :=
  match a.tz, b.tz with
  | none, none => .ok (decide (a.wall < b.wall))
  | some x, some y => .ok (decide (a.wall - x < b.wall - y))
  | _, _ => .error (.typeError "cannot compare offset-naive and offset-aware datetimes")

/-- Python `>=` on datetimes: naive vs aware raises `TypeError`. -/
def pyGe (a b : PyDateTime) : Except PyError Bool := pyLe b a

/-- Python `>` on datetimes: naive vs aware raises `TypeError`. -/
def pyGt (a b : PyDateTime) : Except PyError Bool := pyLt b a

/-- Python `==` on datetimes: total; a naive and an aware value compare
unequal instead of raising. -/
def pyEq (a b : PyDateTime) : Bool :=
  match a.tz, b.tz with
  | none, none => a.wall == b.wall
  | some x, some y => (a.wall - x) == (b.wall - y)
  | _, _ => false

/-- Python `x < dt` where `x` is `Optional[datetime]`: `None` raises. -/
def pyLtOpt (a : Option PyDateTime) (b : PyDateTime) : Except PyError Bool :=
  match a with
  | none => .error (.typeError "not supported between instances of NoneType and datetime")
  | some a => pyLt a b

/-- Python `x > dt` where `x` is `Optional[datetime]`: `None` raises. -/
def pyGtOpt (a : Option PyDateTime) (b : PyDateTime) : Except PyError Bool :=
  match a with
  | none => .error (.typeError "not supported between instances of NoneType and datetime")
  | some a => pyGt a b

/-- Python truthiness of an `Optional[str]`: `None` and `""` are falsy. -/
def truthyStr : Option String → Bool
  | none => false
  | some s => s ≠ ""

/-- Python substring membership `needle in haystack` (case-sensitive). -/
def substrIn (needle haystack : String) : Bool :=
  decide (needle.data <:+: haystack.data)

/-- A Python list comprehension `[x for x in l if p(x)]` whose predicate may
raise: the first exception aborts the whole comprehension. -/
def pyFilterM (p : α → Except PyError Bool) : List α → Except PyError (List α)
  | [] => .ok []
  | x :: xs =>
    match p x with
    | .error e => .error e
    | .ok b =>
      match pyFilterM p xs with
      | .error e => .error e
      | .ok rest => .ok (if b then x :: rest else rest)

/-- The `normalize` helper of `NamedObject.find` (`app/routers/models.py`):
convert a naive datetime into a UTC-aware one via `replace(tzinfo=utc)`. -/
def normalize (dt : PyDateTime) : PyDateTime :=
  match dt.tz with
  | none => { dt with tz := some 0 }
  | some _ => dt

/-- The shared fields of `NamedObject` (`app/routers/models.py`); the
computed `self_uri` plays no role in filtering and is omitted. -/
structure NamedObject where
  id : String
  name : Option String
  description : Option String
  last_modified : PyDateTime
deriving Repr, DecidableEq

/-- `NamedObject.find` (`app/routers/models.py`). The Python static method is
duck-typed over any objects carrying `name`/`description`/`last_modified`;
here `toN` projects those shared fields. Filters are applied in source
order: `name` equality, `description` substring, `modified_since`. -/
def NamedObject.find (toN : α → NamedObject) (a : List α)
    (name description : Option String) (modified_since : Option PyDateTime) :
    Except PyError (List α) := do
  let a := if truthyStr name then a.filter (fun aa => (toN aa).name == name) else a
  let a ← if truthyStr description then
      pyFilterM (fun aa =>
        match (toN aa).description with
        | none => .error (.typeError "argument of type NoneType is not iterable")
        | some h => .ok (substrIn (description.getD "") h)) a
    else .ok a
  match modified_since with
  | none => .ok a
  | some ms =>
    let ms := normalize ms
    pyFilterM (fun aa => pyGe (normalize (toN aa).last_modified) ms) a

/-- The `Status` enum (`app/routers/status/models.py`). -/
inductive Status where
  | up | down | degraded | unknown
deriving Repr, DecidableEq, BEq

/-- The `ResourceType` enum (`app/routers/status/models.py`). -/
inductive ResourceType where
  | website | service | compute | system | storage | network | unknown
deriving Repr, DecidableEq, BEq

/-- The `Resource` model (`app/routers/status/models.py`); computed URI
fields play no role in filtering and are omitted. -/
structure Resource extends NamedObject where
  capability_ids : List String
  group : Option String
  current_status : Option Status
  resource_type : ResourceType
deriving Repr, DecidableEq

/-- `Resource.find` (`app/routers/status/models.py`): the shared
`NamedObject.find`, then `group` equality, then `resource_type` equality. -/
def Resource.find (resources : List Resource) (name description group : Option String)
    (modified_since : Option PyDateTime) (resource_type : Option ResourceType) :
    Except PyError (List Resource) := do
  let a ← NamedObject.find Resource.toNamedObject resources name description modified_since
  let a := if truthyStr group then a.filter (fun aa => aa.group == group) else a
  let a := match resource_type with
    | some rt => a.filter (fun aa => aa.resource_type == rt)
    | none => a
  .ok a

/-- The `Event` model (`app/routers/status/models.py`). -/
structure Event extends NamedObject where
  occurred_at : PyDateTime
  status : Status
  resource_id : String
  incident_id : Option String
deriving Repr, DecidableEq

/-- `Event.find` (`app/routers/status/models.py`): shared `NamedObject.find`,
then `resource_id`, `status`, `from_` (`occurred_at >= from_`), `to`
(`occurred_at < to`), and `time_` (`occurred_at == time_`) in source order. -/
def Event.find (events : List Event) (resource_id name description : Option String)
    (status : Option Status) (from_ to_ time_ modified_since : Option PyDateTime) :
    Except PyError (List Event) := do
  let events ← NamedObject.find Event.toNamedObject events name description modified_since
  let events := if truthyStr resource_id then
      events.filter (fun e => some e.resource_id == resource_id)
    else events
  let events := match status with
    | some st => events.filter (fun e => e.status == st)
    | none => events
  let events ← match from_ with
    | some f => pyFilterM (fun e => pyGe e.occurred_at f) events
    | none => .ok events
  let events ← match to_ with
    | some t => pyFilterM (fun e => pyLt e.occurred_at t) events
    | none => .ok events
  let events := match time_ with
    | some t => events.filter (fun e => pyEq e.occurred_at t)
    | none => events
  .ok events

/-- The `IncidentType` enum (`app/routers/status/models.py`). -/
inductive IncidentType where
  | planned | unplanned
deriving Repr, DecidableEq, BEq

/-- The `Resolution` enum (`app/routers/status/models.py`). -/
inductive Resolution where
  | unresolved | cancelled | completed | extended | pending
deriving Repr, DecidableEq, BEq

/-- The `Incident` model (`app/routers/status/models.py`); `end` is a Lean
keyword, so the optional `end` field is embedded as `end_`. -/
structure Incident extends NamedObject where
  status : Status
  resource_ids : List String
  event_ids : List String
  start : PyDateTime
  end_ : Option PyDateTime
  type : IncidentType
  resolution : Resolution
deriving Repr, DecidableEq

/-- `Incident.find` (`app/routers/status/models.py`): shared
`NamedObject.find`, then `resource_id` membership, `status`, `type_`,
`from_` (`start >= from_`), `to` (`end < to`), and `time_`
(`start <= time_ and end > time_`, with Python short-circuit `and`),
in source order. -/
def Incident.find (incidents : List Incident) (name description : Option String)
    (status : Option Status) (type_ : Option IncidentType)
    (from_ to_ time_ modified_since : Option PyDateTime) (resource_id : Option String) :
    Except PyError (List Incident) := do
  let incidents ← NamedObject.find Incident.toNamedObject incidents name description modified_since
  let incidents := if truthyStr resource_id then
      incidents.filter (fun e => e.resource_ids.contains (resource_id.getD ""))
    else incidents
  let incidents := match status with
    | some st => incidents.filter (fun e => e.status == st)
    | none => incidents
  let incidents := match type_ with
    | some ty => incidents.filter (fun e => e.type == ty)
    | none => incidents
  let incidents ← match from_ with
    | some f => pyFilterM (fun e => pyGe e.start f) incidents
    | none => .ok incidents
  let incidents ← match to_ with
    | some t => pyFilterM (fun e => pyLtOpt e.end_ t) incidents
    | none => .ok incidents
  let incidents ← match time_ with
    | some t => pyFilterM (fun e => do
        let b ← pyLe e.start t
        if b then pyGtOpt e.end_ t else .ok false) incidents
    | none => .ok incidents
  .ok incidents

/-- Model of the process environment `os.environ`: a partial map from
variable names to string values (a set variable may hold `""`). -/
def EnvMap : Type := String → Option String

/-- The truthy value list of `_get_adapter_name`
(`app/routers/iri_router.py`): `["true", "1", "on", "yes"]`. -/
def showMissingValues : List String := ["true", "1", "on", "yes"]

/-- Python `os.environ.get("IRI_SHOW_MISSING_ROUTES") not in [...]` negated:
the flag is enabled iff the variable is set to one of the listed values. -/
def showMissingEnabled (env : EnvMap) : Bool :=
  match env "IRI_SHOW_MISSING_ROUTES" with
  | none => false
  | some v => showMissingValues.contains v

/-- The configuration key `IRI_API_ADAPTER_<router_name>`. -/
def adapterKey (router_name : String) : String :=
  "IRI_API_ADAPTER_" ++ router_name

/-- `IriRouter._get_adapter_name` (`app/routers/iri_router.py`): `None` when
the group key is unset and the show-missing flag is not enabled; otherwise
the configured value, defaulting to `"app.demo_adapter.DemoAdapter"`. -/
def _get_adapter_name (env : EnvMap) (router_name : String) : Option String :=
  if (env (adapterKey router_name)).isNone ∧ ¬ (showMissingEnabled env = true) then
    none
  else
    some ((env (adapterKey router_name)).getD "app.demo_adapter.DemoAdapter")

/-- A resolved adapter instance (the result of `AdapterClass()`). -/
structure Adapter where
  tag : String
deriving Repr, DecidableEq

/-- Model of a loaded Python class: `bases` is the set of interface names
it is a subclass of (the `issubclass` check), `instantiate` the outcome of
calling its constructor. -/
structure AdapterClass where
  bases : List String
  instantiate : Except PyError Adapter

/-- Model of the Python import machinery (`importlib.import_module` +
`getattr`): resolve a dotted identifier to a class, or raise. -/
structure AdapterWorld where
  loadClass : String → Except PyError AdapterClass

/-- `IriRouter.create_adapter` (`app/routers/iri_router.py`): resolve the
adapter name (`None` or Python-falsy `""` gives no adapter), import the
class, raise unless it subclasses the required capability `router_adapter`,
then instantiate it. -/
def create_adapter (w : AdapterWorld) (env : EnvMap)
    (router_name router_adapter : String) : Except PyError (Option Adapter) :=
  match _get_adapter_name env router_name with
  | none => .ok none
  | some adapter_name =>
    if adapter_name = "" then .ok none
    else do
      let cls ← w.loadClass adapter_name
      if cls.bases.contains router_adapter then do
        let inst ← cls.instantiate
        .ok (some inst)
      else
        .error (.exception (adapter_name ++ " should implement FacilityAdapter"))

/-- The observable state an `IriRouter.__init__` run leaves behind:
the resolved adapters and the `include_in_schema` flag (initially `true`,
the framework default). -/
structure IriRouterState where
  adapter : Option Adapter
  task_adapter : Option Adapter
  include_in_schema : Bool
deriving Repr, DecidableEq

/-- `IriRouter.__init__` (`app/routers/iri_router.py`): resolve the group's
own adapter (hiding the group when absent), then, when a second-level
`task_router_adapter` capability is supplied, resolve the `"task"` adapter
and hide the group as well when that one is absent. -/
def IriRouter.init (w : AdapterWorld) (env : EnvMap) (router_name : String)
    (router_adapter : String) (task_router_adapter : Option String) :
    Except PyError IriRouterState := do
  let adapter ← create_adapter w env router_name router_adapter
  let include1 := adapter.isSome
  match task_router_adapter with
  | none => .ok ⟨adapter, none, include1⟩
  | some cap => do
    let ta ← create_adapter w env "task" cap
    .ok ⟨adapter, ta, include1 && ta.isSome⟩

/-- Outcome of the auth gate `IriRouter.current_user`
(`app/routers/iri_router.py`): an `HTTPException` with status code and
detail, or success with `request.state.current_user_id` and
`request.state.api_key` attached. -/
inductive AuthResult where
  | http (status_code : Nat) (detail : String) : AuthResult
  | success (current_user_id : String) (api_key : String) : AuthResult
deriving Repr, DecidableEq

/-- `IriRouter.current_user` (`app/routers/iri_router.py`). The adapter call
`await self.adapter.get_current_user(api_key, client_ip)` is abstracted as
its outcome `decode`: an exception, or a returned id (`none` models Python
`None`; a returned `""` is likewise falsy). Exceptions give 401, a falsy id
gives 403, otherwise the id and key are attached to the request state. -/
def current_user (decode : Except PyError (Option String)) (api_key : String) :
    AuthResult :=
  match decode with
  | .error _ => .http 401 "Invalid or malformed Authorization parameters"
  | .ok user_id =>
    match user_id with
    | none => .http 403 "Unauthorized access"
    | some uid =>
      if uid = "" then .http 403 "Unauthorized access"
      else .success uid api_key

/-- The `TaskStatus` enum (`app/routers/task/models.py`). -/
inductive TaskStatus where
  | pending | active | completed | failed | canceled
deriving Repr, DecidableEq, BEq

/-- The `TaskCommand` model (`app/routers/task/models.py`); the free-form
`args` mapping is consumed only inside the abstracted adapter calls. -/
structure TaskCommand where
  router : String
  command : String
  args : List (String × String)
deriving Repr, DecidableEq

/-- Modelled from the spec: the filesystem domain adapter invoked by
`FacilityAdapter.on_task` lives in `app/routers/filesystem`, which is not
part of the provided sources. Each field abstracts one complete
`elif` body for a known command — argument deserialization
(`model_validate(task.args[...])`), the adapter call, and result
serialization (`model_dump_json()`) — as its outcome: the produced result
text, or the first exception raised anywhere in that body. -/
structure FsAdapterOracle where
  chmod : Except PyError String
  chown : Except PyError String
  file : Except PyError String
  stat : Except PyError String
  mkdir : Except PyError String
  symlink : Except PyError String
  ls : Except PyError String
  head : Except PyError String
  view : Except PyError String
  tail : Except PyError String
  checksum : Except PyError String
  rm : Except PyError String
  compress : Except PyError String
  extract : Except PyError String
  mv : Except PyError String
  cp : Except PyError String
  download : Except PyError String
  upload : Except PyError String

/-- The closed set of filesystem commands with an `elif` branch in
`FacilityAdapter.on_task` (`app/routers/task/facility_adapter.py`),
in source order. -/
def knownCommands : List String :=
  ["chmod", "chown", "file", "stat", "mkdir", "symlink", "ls", "head",
   "view", "tail", "checksum", "rm", "compress", "extract", "mv", "cp",
   "download", "upload"]

/-- The `if/elif` chain of `on_task` for `router == "filesystem"`, given the
resolved adapter (`fs_adapter`). A matched command with an absent adapter
reaches an attribute access on `None` (after any deserialization error) and
so raises; an unmatched command leaves `r = None`. The `upload` branch
discards the adapter result and sets a fixed message. -/
def dispatchFs (fs : Option FsAdapterOracle) (command : String) :
    Except PyError (Option String) :=
  if knownCommands.contains command then
    match fs with
    | none => .error (.exception "NoneType object has no attribute")
    | some fs =>
      if command = "chmod" then fs.chmod.map some
      else if command = "chown" then fs.chown.map some
      else if command = "file" then fs.file.map some
      else if command = "stat" then fs.stat.map some
      else if command = "mkdir" then fs.mkdir.map some
      else if command = "symlink" then fs.symlink.map some
      else if command = "ls" then fs.ls.map some
      else if command = "head" then fs.head.map some
      else if command = "view" then fs.view.map some
      else if command = "tail" then fs.tail.map some
      else if command = "checksum" then fs.checksum.map some
      else if command = "rm" then fs.rm.map some
      else if command = "compress" then fs.compress.map some
      else if command = "extract" then fs.extract.map some
      else if command = "mv" then fs.mv.map some
      else if command = "cp" then fs.cp.map some
      else if command = "download" then fs.download.map some
      else fs.upload.map (fun _ => "File uploaded successfully")
  else .ok none

/-- The body of the `try` block of `on_task`: for the `"filesystem"` router,
create the second-level adapter (`IriRouter.create_adapter`, abstracted as
its outcome `createFs`) and run the command chain; any other router leaves
`r = None`. -/
def runTaskBody (createFs : Except PyError (Option FsAdapterOracle))
    (task : TaskCommand) : Except PyError (Option String) :=
  if task.router = "filesystem" then do
    let fs ← createFs
    dispatchFs fs task.command
  else .ok none

/-- The failure text of `on_task` when `r` is falsy. -/
def unknownMsg (task : TaskCommand) : String :=
  "Task was cancelled due to unknown router/command: " ++ task.router ++ ":" ++ task.command

/-- `FacilityAdapter.on_task` (`app/routers/task/facility_adapter.py`):
run the command, then `if r:` (Python truthiness — `None` and `""` are
falsy) decides between `(r, completed)` and the unknown-router/command
failure; any exception is caught and becomes `(f"Error: {exc}", failed)`. -/
def on_task (createFs : Except PyError (Option FsAdapterOracle))
    (task : TaskCommand) : String × TaskStatus :=
  match runTaskBody createFs task with
  | .ok (some r) =>
    if r = "" then (unknownMsg task, TaskStatus.failed)
    else (r, TaskStatus.completed)
  | .ok none => (unknownMsg task, TaskStatus.failed)
  | .error exc => ("Error: " ++ exc.message, TaskStatus.failed)

/-! Helper lemmas about the embedded primitives. -/

theorem pyFilterM_congr_ok (p : α → Except PyError Bool) (q : α → Bool)
    (l : List α) (h : ∀ x ∈ l, p x = .ok (q x)) :
    pyFilterM p l = .ok (l.filter q) := by
  induction l with
  | nil => rfl
  | cons x xs ih =>
    have hx := h x (List.mem_cons_self x xs)
    have hxs := ih (fun y hy => h y (List.mem_cons_of_mem _ hy))
    simp only [pyFilterM, hx, hxs, List.filter_cons]

theorem pyFilterM_error_of_mem (p : α → Except PyError Bool) (l : List α)
    (x : α) (hx : x ∈ l) (e : PyError) (hpx : p x = .error e) :
    ∃ e2, pyFilterM p l = .error e2 := by
  induction l with
  | nil => cases hx
  | cons y ys ih =>
    cases hx with
    | head => exact ⟨e, by simp only [pyFilterM, hpx]⟩
    | tail _ hmem =>
      match hp : p y with
      | .error e3 => exact ⟨e3, by simp only [pyFilterM, hp]⟩
      | .ok b =>
        obtain ⟨e2, h2⟩ := ih hmem
        exact ⟨e2, by simp only [pyFilterM, hp, h2]⟩

theorem find_noFilters (toN : α → NamedObject) (a : List α) :
    NamedObject.find toN a none none none = .ok a := rfl

theorem normalize_utcKey (dt : PyDateTime) : utcKey (normalize dt) = utcKey dt := by
  cases h : dt.tz <;> simp [normalize, utcKey, h]

theorem normalize_tz_isSome (dt : PyDateTime) : (normalize dt).tz.isSome = true := by
  cases h : dt.tz <;> simp [normalize, h]

theorem pyLe_ok_of_compat (a b : PyDateTime) (h : a.tz.isSome = b.tz.isSome) :
    pyLe a b = .ok (decide (utcKey a ≤ utcKey b)) := by
  match ha : a.tz, hb : b.tz with
  | none, none => simp [pyLe, ha, hb, utcKey]
  | some x, some y => simp [pyLe, ha, hb, utcKey]
  | none, some y => rw [ha, hb] at h; simp at h
  | some x, none => rw [ha, hb] at h; simp at h

theorem pyLe_error_of_mixed (a b : PyDateTime) (h : a.tz.isSome ≠ b.tz.isSome) :
    pyLe a b = .error (.typeError "cannot compare offset-naive and offset-aware datetimes") := by
  match ha : a.tz, hb : b.tz with
  | none, none => rw [ha, hb] at h; simp at h
  | some x, some y => rw [ha, hb] at h; simp at h
  | none, some y => simp [pyLe, ha, hb]
  | some x, none => simp [pyLe, ha, hb]

theorem exc_bind_ok (a : α) (f : α → Except PyError β) :
    (Except.ok a : Except PyError α) >>= f = f a := rfl

theorem exc_bind_error (e : PyError) (f : α → Except PyError β) :
    (Except.error e : Except PyError α) >>= f = Except.error e := rfl

theorem pyLt_ok_of_compat (a b : PyDateTime) (h : a.tz.isSome = b.tz.isSome) :
    pyLt a b = .ok (decide (utcKey a < utcKey b)) := by
  match ha : a.tz, hb : b.tz with
  | none, none => simp [pyLt, ha, hb, utcKey]
  | some x, some y => simp [pyLt, ha, hb, utcKey]
  | none, some y => rw [ha, hb] at h; simp at h
  | some x, none => rw [ha, hb] at h; simp at h

/-! Concrete sample values used by counterexamples and witnesses. -/

/-- A named object whose optional description is absent. -/
def descNoneObj : NamedObject :=
  { id := "r1", name := some "node-a", description := none,
    last_modified := ⟨0, none⟩ }

/-- A named object with a present description. -/
def descSomeObj : NamedObject :=
  { id := "r2", name := some "node-b", description := some "hello",
    last_modified := ⟨0, none⟩ }

/-! Claim theorems. -/

/-- C8: applying a filter spec with no predicates supplied is the identity
on the collection (order preserved, no error) for every entity kind:
`NamedObject.find`, `Resource.find`, `Event.find` and `Incident.find`
return the input list unchanged when every predicate is `none`. -/
theorem find_empty_spec_identity (no : List NamedObject) (r : List Resource)
    (e : List Event) (i : List Incident) :
    NamedObject.find id no none none none = .ok no
  ∧ Resource.find r none none none none none = .ok r
  ∧ Event.find e none none none none none none none none = .ok e
  ∧ Incident.find i none none none none none none none none none = .ok i :=
  ⟨rfl, rfl, rfl, rfl⟩

/-- C4 counterexample: an entity whose `description` field is `None` is not
dropped as a no-match when a description filter is supplied — the filter
raises a `TypeError` (`description in None`), so the application is not
total. -/
theorem description_none_raises :
    NamedObject.find id [descNoneObj] none (some "x") none =
      .error (.typeError "argument of type NoneType is not iterable") := rfl

/-- C4 (amended): the description filter is a case-sensitive substring
containment check against the `description` field; an entity whose
description is `None` causes the filter application to raise a `TypeError`
(the filter is not total on such collections) rather than dropping the
entity as a no-match. -/
theorem description_filter_characterization (o : NamedObject) (d : String)
    (hd : d ≠ "") :
    NamedObject.find id [o] none (some d) none =
      (match o.description with
       | none => .error (.typeError "argument of type NoneType is not iterable")
       | some h => .ok (if substrIn d h then [o] else []))
  ∧ substrIn "abc" "xABCx" = false ∧ substrIn "ABC" "xABCx" = true := by
  refine ⟨?_, by decide, by decide⟩
  have ht : truthyStr (some d) = true := by simp [truthyStr, hd]
  cases hdesc : o.description with
  | none =>
    simp [NamedObject.find, truthyStr, hd, pyFilterM, hdesc, id_eq]
    rfl
  | some h =>
    simp [NamedObject.find, truthyStr, hd, pyFilterM, hdesc, id_eq]
    rfl

/-- Witness for `description_filter_characterization` at a concrete entity
and a concrete non-empty needle. -/
theorem description_filter_characterization_witness :
    ("ell" : String) ≠ ""
  ∧ (NamedObject.find id [descSomeObj] none (some "ell") none =
      (match descSomeObj.description with
       | none => .error (.typeError "argument of type NoneType is not iterable")
       | some h => .ok (if substrIn "ell" h then [descSomeObj] else []))
    ∧ substrIn "abc" "xABCx" = false ∧ substrIn "ABC" "xABCx" = true) :=
  ⟨by decide, description_filter_characterization descSomeObj "ell" (by decide)⟩

/-- An event whose `occurred_at` timestamp is offset-aware (UTC). -/
def awareEvent : Event :=
  { id := "e1", name := none, description := none, last_modified := ⟨0, some 0⟩,
    occurred_at := ⟨0, some 0⟩, status := Status.up, resource_id := "r1",
    incident_id := none }

/-- C3 counterexample: the `from_` lower-bound filter compares the naive
bound directly against the offset-aware `occurred_at` and raises a
`TypeError`, although the same comparison performed after normalizing both
sides to UTC is defined (and true). -/
theorem from_filter_mixed_tz_raises :
    Event.find [awareEvent] none none none none (some ⟨0, none⟩) none none none =
      .error (.typeError "cannot compare offset-naive and offset-aware datetimes")
  ∧ pyGe (normalize awareEvent.occurred_at) (normalize ⟨0, none⟩) = .ok true :=
  ⟨rfl, rfl⟩

/-- C3 (amended): only the `modified_since` predicate normalizes timestamps:
both the filter bound and each entity's `last_modified` are independently
converted to UTC when naive, making that comparison total and equal to the
comparison of UTC instants; the `from_` bound of the event filter (like
`to` and the ordering half of `time_`) is compared raw, raising a
`TypeError` whenever exactly one side is offset-aware. -/
theorem modified_since_normalizes (toN : α → NamedObject) (a : List α)
    (ms : PyDateTime) (ev : Event) (f : PyDateTime)
    (hmix : ev.occurred_at.tz.isSome ≠ f.tz.isSome) :
    NamedObject.find toN a none none (some ms) =
      .ok (a.filter (fun aa => decide (utcKey ms ≤ utcKey (toN aa).last_modified)))
  ∧ (∃ msg, Event.find [ev] none none none none (some f) none none none =
      .error (.typeError msg)) := by
  constructor
  · have hpt : ∀ x ∈ a,
        pyGe (normalize (toN x).last_modified) (normalize ms) =
          .ok (decide (utcKey ms ≤ utcKey (toN x).last_modified)) := by
      intro x _
      rw [pyGe, pyLe_ok_of_compat _ _ (by
        rw [normalize_tz_isSome, normalize_tz_isSome])]
      rw [normalize_utcKey, normalize_utcKey]
    have := pyFilterM_congr_ok _ _ a hpt
    simp only [NamedObject.find, truthyStr]
    exact this
  · refine ⟨"cannot compare offset-naive and offset-aware datetimes", ?_⟩
    have hpe : pyGe ev.occurred_at f =
        .error (.typeError "cannot compare offset-naive and offset-aware datetimes") := by
      rw [pyGe]
      exact pyLe_error_of_mixed f ev.occurred_at (fun hh => hmix hh.symm)
    simp [Event.find, find_noFilters, truthyStr, pyFilterM, hpe,
      exc_bind_ok, exc_bind_error]

/-- Witness for `modified_since_normalizes` at a concrete collection, bound
and mixed-awareness event/bound pair. -/
theorem modified_since_normalizes_witness :
    awareEvent.occurred_at.tz.isSome ≠ (⟨0, none⟩ : PyDateTime).tz.isSome
  ∧ (NamedObject.find id [descSomeObj] none none (some ⟨0, some 0⟩) =
      .ok (List.filter (fun aa =>
        decide (utcKey ⟨0, some 0⟩ ≤ utcKey (id aa).last_modified)) [descSomeObj])
    ∧ (∃ msg, Event.find [awareEvent] none none none none (some ⟨0, none⟩) none none none =
        .error (.typeError msg))) :=
  ⟨by decide,
   modified_since_normalizes id [descSomeObj] ⟨0, some 0⟩ awareEvent ⟨0, none⟩ (by decide)⟩

/-- C2: an incident with `start = T0` and `end = T1` is matched by the
exact-instant filter `time_ = t` iff `T0 ≤ t < T1` (the boundary `t = T1`
excluded), whenever the timestamps are comparable (same tz-awareness);
an event is matched by `time_ = t` iff `occurred_at == t` exactly
(Python datetime equality). -/
theorem time_point_containment (i : Incident) (e : Event) (T0 T1 t : PyDateTime)
    (hs : i.start = T0) (he : i.end_ = some T1)
    (h0 : T0.tz.isSome = t.tz.isSome) (h1 : T1.tz.isSome = t.tz.isSome) :
    Incident.find [i] none none none none none none (some t) none none =
      .ok (if utcKey T0 ≤ utcKey t ∧ utcKey t < utcKey T1 then [i] else [])
  ∧ Event.find [e] none none none none none none (some t) none =
      .ok (if pyEq e.occurred_at t then [e] else []) := by
  constructor
  · have hpred : (do
        let b ← pyLe i.start t
        if b then pyGtOpt i.end_ t else .ok false :
          Except PyError Bool) =
        .ok (decide (utcKey T0 ≤ utcKey t ∧ utcKey t < utcKey T1)) := by
      rw [hs, he, pyLe_ok_of_compat T0 t h0, exc_bind_ok]
      by_cases hle : utcKey T0 ≤ utcKey t
      · rw [if_pos (by simpa using hle)]
        simp only [pyGtOpt]
        rw [pyGt, pyLt_ok_of_compat t T1 h1.symm]
        simp [hle]
      · rw [if_neg (by simpa using hle)]
        simp [hle]
    simp [Incident.find, find_noFilters, truthyStr, pyFilterM, hpred,
      exc_bind_ok, exc_bind_error]
  · simp [Event.find, find_noFilters, truthyStr, exc_bind_ok]
    by_cases hc : pyEq e.occurred_at t <;> simp [hc, List.filter]

/-- A closed incident running from tick 0 to tick 10 (naive timestamps). -/
def sampleIncident : Incident :=
  { id := "i1", name := none, description := none, last_modified := ⟨0, none⟩,
    status := Status.up, resource_ids := [], event_ids := [],
    start := ⟨0, none⟩, end_ := some ⟨10, none⟩,
    type := IncidentType.planned, resolution := Resolution.unresolved }

/-- Witness for `time_point_containment` at concrete naive timestamps
`T0 = 0`, `T1 = 10`, `t = 5`. -/
theorem time_point_containment_witness :
    sampleIncident.start = ⟨0, none⟩
  ∧ sampleIncident.end_ = some ⟨10, none⟩
  ∧ (Incident.find [sampleIncident] none none none none none none (some ⟨5, none⟩) none none =
      .ok (if utcKey ⟨0, none⟩ ≤ utcKey ⟨5, none⟩ ∧ utcKey ⟨5, none⟩ < utcKey ⟨10, none⟩
           then [sampleIncident] else [])
    ∧ Event.find [awareEvent] none none none none none none (some ⟨5, none⟩) none =
      .ok (if pyEq awareEvent.occurred_at ⟨5, none⟩ then [awareEvent] else [])) :=
  ⟨rfl, rfl, time_point_containment sampleIncident awareEvent ⟨0, none⟩ ⟨10, none⟩
    ⟨5, none⟩ rfl rfl (by decide) (by decide)⟩

/-- An ongoing incident (`end = None`) that started at tick 1. -/
def openIncident : Incident :=
  { id := "i2", name := none, description := none, last_modified := ⟨0, none⟩,
    status := Status.down, resource_ids := [], event_ids := [],
    start := ⟨1, none⟩, end_ := none,
    type := IncidentType.unplanned, resolution := Resolution.unresolved }

/-- C9 counterexample: a collection containing an `end = None` incident,
filtered with `time_` supplied, does not error — because `start <= time_`
is false the short-circuiting `and` never reaches `end > time_`, and the
incident is simply dropped as a no-match. -/
theorem open_incident_time_filter_no_error :
    Incident.find [openIncident] none none none none none none
      (some ⟨0, none⟩) none none = .ok [] := rfl

/-- C9 (amended): the incident `to` and `time_` filters compare directly
against the optional `end` field with no `None` guard: with `to` supplied,
a collection containing an `end = None` incident always makes the filter
error rather than treating that incident as a no-match; with `time_`
supplied it errors exactly when the short-circuiting conjunction reaches
the `end` comparison, i.e. when `start <= time_` holds. -/
theorem open_incident_end_filters_not_total (a : List Incident) (inc : Incident)
    (t : PyDateTime) (hmem : inc ∈ a) (hend : inc.end_ = none) :
    (∃ err, Incident.find a none none none none none (some t) none none none =
      .error err)
  ∧ (pyLe inc.start t = .ok true →
      ∃ err, Incident.find [inc] none none none none none none (some t) none none =
        .error err) := by
  constructor
  · have hp : pyLtOpt inc.end_ t =
        .error (.typeError "not supported between instances of NoneType and datetime") := by
      rw [hend]; rfl
    obtain ⟨e2, h2⟩ := pyFilterM_error_of_mem (fun e => pyLtOpt e.end_ t) a inc hmem _ hp
    refine ⟨e2, ?_⟩
    simp [Incident.find, find_noFilters, truthyStr, h2, exc_bind_ok, exc_bind_error]
  · intro hle
    have hp : (do
        let b ← pyLe inc.start t
        if b then pyGtOpt inc.end_ t else .ok false :
          Except PyError Bool) =
        .error (.typeError "not supported between instances of NoneType and datetime") := by
      rw [hle, exc_bind_ok, if_pos rfl, hend]; rfl
    refine ⟨.typeError "not supported between instances of NoneType and datetime", ?_⟩
    simp [Incident.find, find_noFilters, truthyStr, pyFilterM, hp,
      exc_bind_ok, exc_bind_error]

/-- Witness for `open_incident_end_filters_not_total` at the concrete
ongoing incident with `t` past its start. -/
theorem open_incident_end_filters_not_total_witness :
    openIncident ∈ [openIncident]
  ∧ openIncident.end_ = none
  ∧ pyLe openIncident.start ⟨2, none⟩ = .ok true
  ∧ ((∃ err, Incident.find [openIncident] none none none none none
        (some ⟨2, none⟩) none none none = .error err)
    ∧ (pyLe openIncident.start ⟨2, none⟩ = .ok true →
        ∃ err, Incident.find [openIncident] none none none none none none
          (some ⟨2, none⟩) none none = .error err)) :=
  ⟨List.mem_singleton.mpr rfl, rfl, rfl,
   open_incident_end_filters_not_total [openIncident] openIncident ⟨2, none⟩
     (List.mem_singleton.mpr rfl) rfl⟩

/-- C1: `on_task` absorbs every failure into its `(result, status)` value —
it is a total function: a `router` other than `"filesystem"` (for any
adapter outcome), or an unknown `command` (when adapter creation does not
raise), yields the descriptive unknown-router/command message with status
`failed`; any exception raised inside the `try` body is converted to a
message embedding the error with status `failed`; and every outcome is one
of `completed`/`failed`, never a propagated exception. -/
theorem on_task_absorbs_failures (createFs : Except PyError (Option FsAdapterOracle))
    (task : TaskCommand) :
    (task.router ≠ "filesystem" →
        on_task createFs task = (unknownMsg task, TaskStatus.failed))
  ∧ (∀ fs, createFs = .ok fs → knownCommands.contains task.command = false →
        on_task createFs task = (unknownMsg task, TaskStatus.failed))
  ∧ (∀ exc, runTaskBody createFs task = .error exc →
        on_task createFs task = ("Error: " ++ exc.message, TaskStatus.failed))
  ∧ ((on_task createFs task).2 = TaskStatus.completed
      ∨ (on_task createFs task).2 = TaskStatus.failed) := by
  refine ⟨?_, ?_, ?_, ?_⟩
  · intro hr
    simp [on_task, runTaskBody, hr]
  · intro fs hfs hcmd
    have hbody : runTaskBody createFs task = .ok none := by
      by_cases hr : task.router = "filesystem"
      · have hnm : task.command ∉ knownCommands := by simpa using hcmd
        simp [runTaskBody, hr, hfs, exc_bind_ok, dispatchFs, hnm]
      · simp [runTaskBody, hr]
    simp [on_task, hbody]
  · intro exc hexc
    simp [on_task, hexc]
  · match h : runTaskBody createFs task with
    | .ok (some r) =>
      by_cases hr : r = "" <;> simp [on_task, h, hr]
    | .ok none => simp [on_task, h]
    | .error exc => simp [on_task, h]

/-- Witness for `on_task_absorbs_failures` at a concrete bogus command. -/
theorem on_task_absorbs_failures_witness :
    ("bogus" : String) ≠ "filesystem"
  ∧ on_task (.ok none) ⟨"bogus", "x", []⟩ =
      (unknownMsg ⟨"bogus", "x", []⟩, TaskStatus.failed) :=
  ⟨by decide, (on_task_absorbs_failures (.ok none) ⟨"bogus", "x", []⟩).1 (by decide)⟩

/-- A filesystem adapter whose operations all succeed, `download` returning
the empty text (an empty remote file). -/
def fsEmptyDownload : FsAdapterOracle :=
  { chmod := .ok "{}", chown := .ok "{}", file := .ok "{}", stat := .ok "{}",
    mkdir := .ok "{}", symlink := .ok "{}", ls := .ok "{}", head := .ok "{}",
    view := .ok "{}", tail := .ok "{}", checksum := .ok "{}", rm := .ok "{}",
    compress := .ok "{}", extract := .ok "{}", mv := .ok "{}", cp := .ok "{}",
    download := .ok "", upload := .ok "{}" }

/-- C7 counterexample: the known pair `("filesystem", "download")` executes
without raising, returning the empty result text, yet `if r:` treats the
falsy `""` like `None` and the dispatcher reports the unknown-router/command
failure instead of `completed`. -/
theorem empty_download_not_completed :
    runTaskBody (.ok (some fsEmptyDownload)) ⟨"filesystem", "download", []⟩ =
      .ok (some "")
  ∧ on_task (.ok (some fsEmptyDownload)) ⟨"filesystem", "download", []⟩ =
      (unknownMsg ⟨"filesystem", "download", []⟩, TaskStatus.failed) :=
  ⟨rfl, rfl⟩

/-- C7 (amended): whenever the named operation executes without raising and
produces a non-empty result text, the dispatcher returns it with status
`completed`; and for every input whatsoever the status is never `pending`,
`active` or `canceled`. -/
theorem on_task_success_completed (createFs : Except PyError (Option FsAdapterOracle))
    (task : TaskCommand) :
    (∀ r, runTaskBody createFs task = .ok (some r) → r ≠ "" →
        on_task createFs task = (r, TaskStatus.completed))
  ∧ (on_task createFs task).2 ≠ TaskStatus.pending
  ∧ (on_task createFs task).2 ≠ TaskStatus.active
  ∧ (on_task createFs task).2 ≠ TaskStatus.canceled := by
  have hterm : (on_task createFs task).2 = TaskStatus.completed
      ∨ (on_task createFs task).2 = TaskStatus.failed := by
    match h : runTaskBody createFs task with
    | .ok (some r) =>
      by_cases hr : r = "" <;> simp [on_task, h, hr]
    | .ok none => simp [on_task, h]
    | .error exc => simp [on_task, h]
  refine ⟨?_, ?_, ?_, ?_⟩
  · intro r hbody hr
    simp [on_task, hbody, hr]
  all_goals rcases hterm with h | h <;> rw [h] <;> intro hc <;> cases hc

/-- Witness for `on_task_success_completed` at a concrete successful
`mkdir` task. -/
theorem on_task_success_completed_witness :
    runTaskBody (.ok (some fsEmptyDownload)) ⟨"filesystem", "mkdir", []⟩ =
      .ok (some "{}")
  ∧ ("{}" : String) ≠ ""
  ∧ on_task (.ok (some fsEmptyDownload)) ⟨"filesystem", "mkdir", []⟩ =
      ("{}", TaskStatus.completed) :=
  ⟨rfl, by decide,
   (on_task_success_completed (.ok (some fsEmptyDownload)) ⟨"filesystem", "mkdir", []⟩).1
     "{}" rfl (by decide)⟩

/-- C6: the auth gate's failure modes are distinguishable: a credential
whose adapter decode raises yields HTTP 401 (invalid/malformed); a decode
that succeeds but yields no identifier (Python-falsy `None` or `""`) yields
the distinct HTTP 403 (unauthorized access); on success the resolved user
id and the raw credential are attached to the request state. -/
theorem auth_gate_separation (k : String) :
    (∀ exc, current_user (.error exc) k =
        .http 401 "Invalid or malformed Authorization parameters")
  ∧ current_user (.ok none) k = .http 403 "Unauthorized access"
  ∧ current_user (.ok (some "")) k = .http 403 "Unauthorized access"
  ∧ (∀ uid, uid ≠ "" → current_user (.ok (some uid)) k = .success uid k)
  ∧ (∀ exc, current_user (.error exc) k ≠ current_user (.ok none) k) := by
  refine ⟨fun exc => rfl, rfl, rfl, ?_, ?_⟩
  · intro uid huid
    simp [current_user, huid]
  · intro exc hc
    simp [current_user] at hc

/-- Witness for `auth_gate_separation` at a concrete key and user id. -/
theorem auth_gate_separation_witness :
    ("alice" : String) ≠ ""
  ∧ current_user (.ok (some "alice")) "key1" = .success "alice" "key1"
  ∧ current_user (.error (.exception "bad token")) "key1" =
      .http 401 "Invalid or malformed Authorization parameters" :=
  ⟨by decide,
   (auth_gate_separation "key1").2.2.2.1 "alice" (by decide),
   (auth_gate_separation "key1").1 (.exception "bad token")⟩

/-- An environment where the status adapter key is set to the empty string
and nothing else is set. -/
def emptyKeyEnv : EnvMap :=
  fun k => if k = adapterKey "status" then some "" else none

/-- An import world that fails every load (never reached below). -/
def failWorld : AdapterWorld :=
  ⟨fun n => .error (.exception ("ModuleNotFoundError: " ++ n))⟩

/-- C5 counterexample: with the group key set (to the empty string) and the
show-missing-routes flag not enabled, resolution still returns absent —
refuting "absent iff the key is unset and the flag is not enabled". -/
theorem create_adapter_empty_value_absent :
    create_adapter failWorld emptyKeyEnv "status" "FacilityAdapter" = .ok none
  ∧ emptyKeyEnv (adapterKey "status") ≠ none :=
  ⟨rfl, by simp [emptyKeyEnv]⟩

/-- C5 (amended): adapter resolution returns absent iff the group key is
unset and the show-missing-routes flag is not enabled, or the group key is
set to the empty string; the flag being enabled with an unset key resolves
the built-in demonstration identifier; a resolved instance always comes
from loading the configured-or-default identifier, passing the capability
subclass check, and instantiating; and a group whose resolution is absent
is marked hidden from the schema (`include_in_schema = false`). -/
theorem adapter_resolution_characterization (w : AdapterWorld) (env : EnvMap)
    (g cap : String) :
    (create_adapter w env g cap = .ok none ↔
        (env (adapterKey g) = none ∧ showMissingEnabled env = false)
        ∨ env (adapterKey g) = some "")
  ∧ (env (adapterKey g) = none → showMissingEnabled env = true →
        _get_adapter_name env g = some "app.demo_adapter.DemoAdapter")
  ∧ (∀ ad, create_adapter w env g cap = .ok (some ad) →
        ∃ cls, w.loadClass ((env (adapterKey g)).getD "app.demo_adapter.DemoAdapter") =
            .ok cls
          ∧ cls.bases.contains cap = true ∧ cls.instantiate = .ok ad)
  ∧ (∀ st, IriRouter.init w env g cap none = .ok st → st.adapter = none →
        st.include_in_schema = false) := by
  refine ⟨?_, ?_, ?_, ?_⟩
  · constructor
    · intro h
      match hn : _get_adapter_name env g with
      | none =>
        rw [_get_adapter_name] at hn
        by_cases hk : (env (adapterKey g)).isNone
        · by_cases hf : showMissingEnabled env = true
          · rw [if_neg (by simp [hf])] at hn; cases hn
          · exact Or.inl ⟨Option.isNone_iff_eq_none.mp hk, by simpa using hf⟩
        · rw [if_neg (by simp [hk])] at hn; cases hn
      | some nm =>
        simp only [create_adapter, hn] at h
        by_cases hnm : nm = ""
        · subst hnm
          rw [_get_adapter_name] at hn
          by_cases hcond : (env (adapterKey g)).isNone ∧ ¬ (showMissingEnabled env = true)
          · rw [if_pos hcond] at hn; cases hn
          · rw [if_neg hcond] at hn
            have hgd : (env (adapterKey g)).getD "app.demo_adapter.DemoAdapter" = "" :=
              Option.some.inj hn
            match hk : env (adapterKey g) with
            | none => rw [hk] at hgd; simp at hgd
            | some v =>
              rw [hk] at hgd
              simp only [Option.getD_some] at hgd
              exact Or.inr (by rw [hgd])
        · exfalso
          rw [if_neg hnm] at h
          match hl : w.loadClass nm with
          | .error e => rw [hl] at h; cases h
          | .ok cls =>
            rw [hl] at h
            simp only [exc_bind_ok] at h
            by_cases hb : cls.bases.contains cap = true
            · rw [if_pos hb] at h
              match hi : cls.instantiate with
              | .error e => rw [hi] at h; cases h
              | .ok ad => rw [hi] at h; simp [exc_bind_ok] at h
            · rw [if_neg hb] at h; cases h
    · intro h
      cases h with
      | inl h =>
        have : _get_adapter_name env g = none := by
          rw [_get_adapter_name, if_pos ⟨by simp [h.1], by simp [h.2]⟩]
        rw [create_adapter, this]
      | inr h =>
        have hcond : ¬ ((env (adapterKey g)).isNone ∧ ¬ (showMissingEnabled env = true)) := by
          simp [h]
        have : _get_adapter_name env g = some "" := by
          rw [_get_adapter_name, if_neg hcond, h]
          rfl
        rw [create_adapter, this]
        rfl
  · intro hk hf
    rw [_get_adapter_name, if_neg (by simp [hf]), hk]
    rfl
  · intro ad h
    match hn : _get_adapter_name env g with
    | none => rw [create_adapter, hn] at h; cases h
    | some nm =>
      simp only [create_adapter, hn] at h
      by_cases hz : nm = ""
      · rw [if_pos hz] at h; cases h
      · rw [if_neg hz] at h
        have hname : nm = (env (adapterKey g)).getD "app.demo_adapter.DemoAdapter" := by
          rw [_get_adapter_name] at hn
          by_cases hcond : (env (adapterKey g)).isNone ∧ ¬ (showMissingEnabled env = true)
          · rw [if_pos hcond] at hn; cases hn
          · rw [if_neg hcond] at hn; exact (Option.some.inj hn).symm
        match hl : w.loadClass nm with
        | .error e => rw [hl] at h; cases h
        | .ok cls =>
          rw [hl] at h
          simp only [exc_bind_ok] at h
          by_cases hb : cls.bases.contains cap = true
          · rw [if_pos hb] at h
            match hi : cls.instantiate with
            | .error e => rw [hi] at h; cases h
            | .ok ad2 =>
              rw [hi] at h
              simp only [exc_bind_ok] at h
              have had : ad2 = ad := by
                cases h
                rfl
              exact ⟨cls, by rw [← hname]; exact hl, hb, by rw [hi, had]⟩
          · rw [if_neg hb] at h; cases h
  · intro st hst hnone
    rw [IriRouter.init] at hst
    match hc : create_adapter w env g cap with
    | .error e => rw [hc] at hst; cases hst
    | .ok ad =>
      rw [hc] at hst
      simp only [exc_bind_ok] at hst
      have : st = ⟨ad, none, ad.isSome⟩ := by
        cases hst
        rfl
      rw [this] at hnone ⊢
      simp at hnone
      simp [hnone]

/-- An environment with no variables set at all. -/
def noneEnv : EnvMap := fun _ => none

/-- Witness for `adapter_resolution_characterization` on the empty
environment: the key is unset, the flag is not enabled, resolution is
absent and the group is hidden. -/
theorem adapter_resolution_characterization_witness :
    (noneEnv (adapterKey "status") = none ∧ showMissingEnabled noneEnv = false)
  ∧ create_adapter failWorld noneEnv "status" "FacilityAdapter" = .ok none
  ∧ IriRouter.init failWorld noneEnv "status" "FacilityAdapter" none =
      .ok ⟨none, none, false⟩
  ∧ (⟨none, none, false⟩ : IriRouterState).include_in_schema = false :=
  ⟨⟨rfl, rfl⟩,
   (adapter_resolution_characterization failWorld noneEnv "status" "FacilityAdapter").1.mpr
     (Or.inl ⟨rfl, rfl⟩),
   rfl,
   (adapter_resolution_characterization failWorld noneEnv "status" "FacilityAdapter").2.2.2
     ⟨none, none, false⟩ rfl rfl⟩

/-- C10: for a route group constructed with a second-level task adapter
requirement, visibility requires both adapters: after a non-raising
`IriRouter.__init__`, `include_in_schema` is true iff the group's own
adapter and the `"task"` adapter were both resolved; in particular a group
whose own adapter resolved but whose task adapter is absent is hidden. -/
theorem task_gated_visibility (w : AdapterWorld) (env : EnvMap)
    (g cap tcap : String) (st : IriRouterState)
    (h : IriRouter.init w env g cap (some tcap) = .ok st) :
    st.include_in_schema = true ↔
      (st.adapter.isSome = true ∧ st.task_adapter.isSome = true) := by
  rw [IriRouter.init] at h
  match hc : create_adapter w env g cap with
  | .error e => rw [hc] at h; cases h
  | .ok ad =>
    rw [hc] at h
    simp only [exc_bind_ok] at h
    match hct : create_adapter w env "task" tcap with
    | .error e => rw [hct] at h; cases h
    | .ok ta =>
      rw [hct] at h
      simp only [exc_bind_ok] at h
      have hst : st = ⟨ad, ta, ad.isSome && ta.isSome⟩ := by
        cases h
        rfl
      subst hst
      simp [Bool.and_eq_true]

/-- An environment configuring only the status group's adapter. -/
def statusOnlyEnv : EnvMap :=
  fun k => if k = adapterKey "status" then some "demo.C" else none

/-- An import world where every identifier loads a class implementing
`FacilityAdapter` and instantiating successfully. -/
def okWorld : AdapterWorld :=
  ⟨fun _ => .ok ⟨["FacilityAdapter"], .ok ⟨"demo.C"⟩⟩⟩

/-- Witness for `task_gated_visibility`: the status group's own adapter
resolves but the `"task"` adapter is absent, so the group is hidden. -/
theorem task_gated_visibility_witness :
    IriRouter.init okWorld statusOnlyEnv "status" "FacilityAdapter"
      (some "FacilityAdapter") = .ok ⟨some ⟨"demo.C"⟩, none, false⟩
  ∧ ((⟨some ⟨"demo.C"⟩, none, false⟩ : IriRouterState).include_in_schema = true ↔
      ((⟨some ⟨"demo.C"⟩, none, false⟩ : IriRouterState).adapter.isSome = true
        ∧ (⟨some ⟨"demo.C"⟩, none, false⟩ : IriRouterState).task_adapter.isSome = true)) :=
  ⟨rfl, task_gated_visibility okWorld statusOnlyEnv "status" "FacilityAdapter"
    "FacilityAdapter" ⟨some ⟨"demo.C"⟩, none, false⟩ rfl⟩

end IriApi
